import Mathlib

/-!
# Verification of the CamiApp chat-orchestration core

This file gives a shallow embedding, in Lean 4, of the state and the
operations of the CamiApp mobile chat client that the specification's
claims are about:

* the persistent key/value storage helpers (`src/stores/storage.ts`):
  the pinned-session list, the session-list cache, the last-read-message
  map and the smart-title cache, together with their JSON-guarded getters
  and the `togglePinnedSession` operation;
* the chat orchestration hook (`src/hooks/useChat.ts`): the hook state
  (connection state, streaming flag, error value, republished message
  list, session list, current session key), engine lifecycle
  (`createEngine` decomposed into its unsubscribe / destroy / spawn
  steps), the connection-state-change handler, session switching,
  `send` with its attachment conversion, and `fetchSessions` with its
  cache fallback;
* the smart-title utilities of `src/screens/ChatScreen.tsx`
  (`needsTitle` and the module-level titled-session set).

Engines are modelled by numeric identities handed out by a counter in
the hook state; `alive` lists the engines currently constructed and not
destroyed (with the session key each is bound to), `destroyed` the
identities already destroyed, and `subs` the engine whose update/error
listeners are currently registered by the hook.  Event delivery is
explicit: `engineUpdate`/`engineError` apply an event fired by engine
`e` and mutate the hook state only when the hook's listeners are
registered on `e`, exactly as the listener closures in the source do.
-/

namespace CamiApp

/-! ## JavaScript string truthiness

`jsOrString v d` models the JavaScript expression `v || d` for an
optional string `v`: both `undefined` and the empty string fall back to
the default. -/

def jsOrString (v : Option String) (d : String) : String :=
  match v with
  | some s => if s = "" then d else s
  | none => d

/-! ## Storage model (`src/stores/storage.ts`)

The synchronous storage cache is a partial map from keys to raw string
values.  JSON decoding is modelled by an explicit parse function
argument returning `none` exactly when `JSON.parse` would throw (or the
value is absent); the getters reproduce the source's
`if (!json) return default; try ... catch { return default }` shape. -/

abbrev Store := String → Option String

namespace StorageKeys

def PINNED_SESSIONS : String := "pinned_sessions"

def SESSIONS_CACHE : String := "sessions_cache"

def LAST_READ_MESSAGES : String := "last_read_messages"

def SMART_TITLES_CACHE : String := "smart_titles_cache"

end StorageKeys

/-- `StorageHelpers.getPinnedSessions`: `[]` when the raw value is
absent/empty (JS falsiness of `json`) or fails to parse. -/
def getPinnedSessions (store : Store) (parse : String → Option (List String)) :
    List String :=
  match store StorageKeys.PINNED_SESSIONS with
  | none => []
  | some json =>
    if json = "" then []
    else match parse json with
      | some l => l
      | none => []

/-- `StorageHelpers.getSessionsCache`: `null` when the raw value is
absent/empty or fails to parse, the parsed value otherwise. -/
def getSessionsCache {α : Type} (store : Store) (parse : String → Option α) :
    Option α :=
  match store StorageKeys.SESSIONS_CACHE with
  | none => none
  | some json =>
    if json = "" then none
    else match parse json with
      | some v => some v
      | none => none

/-- `StorageHelpers.getLastReadMessages`: the JSON object is modelled as
an association list; `{}` (the empty list) when absent/empty/malformed. -/
def getLastReadMessages (store : Store)
    (parse : String → Option (List (String × String))) :
    List (String × String) :=
  match store StorageKeys.LAST_READ_MESSAGES with
  | none => []
  | some json =>
    if json = "" then []
    else match parse json with
      | some m => m
      | none => []

/-- `StorageHelpers.getSmartTitlesCache`: same guarded shape as
`getLastReadMessages`, over the smart-titles key. -/
def getSmartTitlesCache (store : Store)
    (parse : String → Option (List (String × String))) :
    List (String × String) :=
  match store StorageKeys.SMART_TITLES_CACHE with
  | none => []
  | some json =>
    if json = "" then []
    else match parse json with
      | some m => m
      | none => []

/-- `StorageHelpers.togglePinnedSession`, at the level of the decoded
pinned list: `indexOf` finds the first occurrence, `splice(index, 1)`
removes it; otherwise `push` appends the key. -/
def togglePinnedSession (sessionKey : String) (pinned : List String) :
    List String :=
  if pinned.contains sessionKey then pinned.erase sessionKey
  else pinned ++ [sessionKey]

/-! ## Attachments (`useChat.send`, `src/hooks/useChat.ts`) -/

/-- The SDK attachment tag: `'image' | 'file'`. -/
inductive AttachmentType where
  | image
  | file
deriving DecidableEq, Repr

/-- The `PickedAttachment` input shape, with its optional fields as used
by `send`. -/
structure PickedAttachment where
  mimeType : Option String
  base64 : Option String
  fileName : Option String
deriving DecidableEq, Repr

/-- The SDK `PendingAttachment` record built by `send`. -/
structure SDKPendingAttachment where
  id : String
  fileName : String
  mimeType : String
  content : String
  type : AttachmentType
deriving DecidableEq, Repr

/-- Structural prefix test on character lists (kernel-reducible stand-in
for `String.startsWith`). -/
def charsPrefix : List Char → List Char → Bool
  | [], _ => true
  | _ :: _, [] => false
  | c :: cs, d :: ds => c == d && charsPrefix cs ds

/-- `s.startsWith(p)` on JavaScript strings. -/
def strStartsWith (s p : String) : Bool :=
  charsPrefix p.data s.data

/-- The derived file extension:
`mimeType.startsWith('audio/') ? 'm4a' : (isImage ? 'jpg' : 'bin')`. -/
def derivedExt (mimeType : String) : String :=
  if strStartsWith mimeType "audio/" then "m4a"
  else if strStartsWith mimeType "image/" then "jpg"
  else "bin"

/-- One step of the attachment-mapping callback in `send` (`now` models
`Date.now()`, `i` the element index). -/
def convertOne (now i : Nat) (att : PickedAttachment) : SDKPendingAttachment :=
  let mimeType := jsOrString att.mimeType "image/jpeg"
  let isImage := strStartsWith mimeType "image/"
  { id := "att-" ++ toString now ++ "-" ++ toString i
    fileName := jsOrString att.fileName ("attachment-" ++ toString i ++ "." ++ derivedExt mimeType)
    mimeType := mimeType
    content := jsOrString att.base64 ""
    type := if isImage then AttachmentType.image else AttachmentType.file }

/-- The indexed `map` over the attachment input list. -/
def convertList (now : Nat) : Nat → List PickedAttachment → List SDKPendingAttachment
  | _, [] => []
  | i, att :: rest => convertOne now i att :: convertList now (i + 1) rest

/-- The full conversion performed by `send`:
`attachmentsInput?.map(...)`, then `.filter(a => a.content)` dropping
attachments whose normalized content is empty. -/
def convertAttachments (now : Nat) (atts : List PickedAttachment) :
    List SDKPendingAttachment :=
  (convertList now 0 atts).filter (fun c => c.content != "")

/-! ## Hook data model (`src/hooks/useChat.ts`, `src/types/index.ts`) -/

/-- `ConnectionState` of the gateway client. -/
inductive ConnState where
  | disconnected
  | connecting
  | connected
  | reconnecting
deriving DecidableEq, Repr

/-- A typed content block of a chat message. -/
inductive ContentBlock where
  | text (s : String)
  | image
  | thinking (s : String)
deriving DecidableEq, Repr

/-- A UI message as republished by the hook. -/
structure UIMessage where
  id : String
  role : String
  content : List ContentBlock
deriving DecidableEq, Repr

/-- The normalized `SessionMeta` record. -/
structure SessionMeta where
  key : String
  friendlyId : String
  label : Option String
  title : Option String
  derivedTitle : Option String
  kind : Option String
  agent : Option String
  channelId : Option String
  createdAt : Option Nat
  updatedAt : Option Nat
  messageCount : Option Nat
deriving DecidableEq, Repr

/-- A raw session record as returned by `sessionsList`, before
normalization (its `friendlyId` may be absent). -/
structure RawSession where
  key : String
  friendlyId : Option String
  label : Option String
  title : Option String
  derivedTitle : Option String
  kind : Option String
  agent : Option String
  channelId : Option String
  createdAt : Option Nat
  updatedAt : Option Nat
  messageCount : Option Nat
deriving DecidableEq, Repr

/-- The per-record normalization in `fetchSessions`:
`friendlyId: s.friendlyId || s.key`, all other fields passed through. -/
def normalizeSession (s : RawSession) : SessionMeta :=
  { key := s.key
    friendlyId := jsOrString s.friendlyId s.key
    label := s.label
    title := s.title
    derivedTitle := s.derivedTitle
    kind := s.kind
    agent := s.agent
    channelId := s.channelId
    createdAt := s.createdAt
    updatedAt := s.updatedAt
    messageCount := s.messageCount }

/-- The observable state of one `useChat` instance.  React state and the
refs are flattened into one record; engines are identified by the
numbers handed out by `nextId`:

* `engine` is `engineRef` (the identity of the engine the hook holds);
* `subs` is `unsubChatRef`: the engine whose update/error listeners are
  currently registered, `none` when no listeners are registered;
* `alive` lists the constructed-and-not-destroyed engines with the
  session key each was bound to; `destroyed` the destroyed identities;
* `clientExists` models `clientRef.current !== null`;
  `clientDisconnects` counts calls to `client.disconnect()`;
  `connectAttempts` counts calls to `client.connect()`;
* `sessionsCache` is the `SESSIONS_CACHE` storage entry (decoded) and
  `lastSavedSession` the `LAST_SESSION_KEY` entry. -/
structure HookState where
  connState : ConnState
  isStreaming : Bool
  error : Option String
  messages : List UIMessage
  sessions : List SessionMeta
  currentSessionKey : String
  nextId : Nat
  engine : Option Nat
  subs : Option Nat
  alive : List (Nat × String)
  destroyed : List Nat
  clientExists : Bool
  clientDisconnects : Nat
  connectAttempts : Nat
  lastSavedSession : Option String
  sessionsCache : Option (List SessionMeta)
deriving DecidableEq, Repr

/-- The hook's initial state (`useState` initializers). -/
def initState (sessionKey : String) : HookState :=
  { connState := ConnState.disconnected
    isStreaming := false
    error := none
    messages := []
    sessions := []
    currentSessionKey := sessionKey
    nextId := 0
    engine := none
    subs := none
    alive := []
    destroyed := []
    clientExists := false
    clientDisconnects := 0
    connectAttempts := 0
    lastSavedSession := none
    sessionsCache := none }

/-- The synchronous part of the connection effect: with an empty gateway
URL it returns immediately (`if (!gatewayUrl) return`); otherwise it
creates a client, moves to `connecting` and issues `client.connect()`. -/
def initHook (gatewayUrl sessionKey : String) : HookState :=
  if gatewayUrl = "" then initState sessionKey
  else { initState sessionKey with
           clientExists := true
           connState := ConnState.connecting
           connectAttempts := 1 }

/-! ## Engine lifecycle (`createEngine`) -/

/-- First block of `createEngine`: `if (unsubChatRef.current) { ... }` —
unregister the current listeners, if any. -/
def unsubscribeStep (s : HookState) : HookState :=
  match s.subs with
  | some _ => { s with subs := none }
  | none => s

/-- Second block of `createEngine`: destroy the engine held in
`engineRef`, if any, and null the ref. -/
def destroyEngineStep (s : HookState) : HookState :=
  match s.engine with
  | some e =>
    { s with engine := none
             alive := s.alive.filter (fun p => p.1 != e)
             destroyed := e :: s.destroyed }
  | none => s

/-- Last block of `createEngine`: construct a new engine bound to
`sessKey`, store it in `engineRef`, reset the republished messages and
streaming flag, and register its update/error listeners. -/
def spawnEngineStep (sessKey : String) (s : HookState) : HookState :=
  let e := s.nextId
  { s with nextId := e + 1
           engine := some e
           alive := (e, sessKey) :: s.alive
           messages := []
           isStreaming := false
           subs := some e }

/-- `createEngine(client, sessKey)`: unsubscribe, then destroy, then
construct-and-subscribe, in that order. -/
def createEngine (sessKey : String) (s : HookState) : HookState :=
  spawnEngineStep sessKey (destroyEngineStep (unsubscribeStep s))

/-! ## Event delivery

An `update` (resp. `error`) event fired by engine `e` runs the listener
closures only when the hook's listeners are registered on `e`. -/

/-- Delivery of an `update` event from engine `e` carrying that engine's
message list and streaming flag. -/
def engineUpdate (e : Nat) (msgs : List UIMessage) (streaming : Bool)
    (s : HookState) : HookState :=
  if s.subs = some e then { s with messages := msgs, isStreaming := streaming }
  else s

/-- Delivery of an `error` event from engine `e`. -/
def engineError (e : Nat) (err : String) (s : HookState) : HookState :=
  if s.subs = some e then { s with error := some err } else s

/-! ## Connection-state handler and session switching -/

/-- The `onConnectionStateChange` callback.  The callback is installed
by the connection effect and closes over the `currentSessionKey` value
of the render in which that effect ran — `currentSessionKey` is
deliberately omitted from the effect's dependency list, so the closure
is NOT refreshed when the session is switched; `capturedSessionKey` is
that closed-over value, and it is what engine creation on (re)connect
uses, not the live `s.currentSessionKey`.  On `connected` the callback
clears the error and creates an engine bound to the captured key if
none exists (the session-list fetch it also triggers is asynchronous
and modelled by `fetchSessionsStep`); on `disconnected` it destroys the
engine and nulls the ref — note the source does NOT run `unsubChatRef`
here, so `subs` is left as it was. -/
def onConnectionStateChange (capturedSessionKey : String) (st : ConnState)
    (s : HookState) : HookState :=
  let s1 := { s with connState := st }
  match st with
  | ConnState.connected =>
    let s2 := { s1 with error := none }
    if s2.engine = none ∧ s2.clientExists = true then
      createEngine capturedSessionKey s2
    else s2
  | ConnState.disconnected =>
    match s1.engine with
    | some e =>
      { s1 with engine := none
                alive := s1.alive.filter (fun p => p.1 != e)
                destroyed := e :: s1.destroyed }
    | none => s1
  | _ => s1

/-- `switchSession(newKey)` followed by the session-change effect: the
effect returns early unless a client exists and the state is
`connected`; otherwise it recreates the engine when one exists and
persists the new key as the last session. -/
def switchSession (newKey : String) (s : HookState) : HookState :=
  let s1 := { s with currentSessionKey := newKey }
  if s1.clientExists = true ∧ s1.connState = ConnState.connected then
    let s2 := if s1.engine.isSome then createEngine newKey s1 else s1
    { s2 with lastSavedSession := some newKey }
  else s1

/-! ## `send` and `fetchSessions` -/

/-- `send(text, attachmentsInput)`: throws `'Not connected'` when no
engine exists; otherwise converts the attachments and hands them to
`engine.send` (the payload is returned; the delayed session refresh is
asynchronous and out of this step).  The hook state is returned
unchanged in both cases: `send` itself mutates no message state. -/
def send (s : HookState) (text : String)
    (attachmentsInput : Option (List PickedAttachment)) (now : Nat) :
    Except String (Option (List SDKPendingAttachment)) × HookState :=
  match s.engine with
  | none => (Except.error "Not connected", s)
  | some _ => (Except.ok (attachmentsInput.map (convertAttachments now)), s)

/-- `fetchSessions`: a no-op unless a client exists and reports itself
connected; on a successful query the normalized list is republished and
written to the cache; on a failed query the cached snapshot, when
present, is republished unchanged.  `result` is the outcome of the
`sessionsList` query, whose `sessions` field may be absent
(`response.sessions || []`). -/
def fetchSessionsStep (hasClient isConnected : Bool)
    (result : Except Unit (Option (List RawSession))) (s : HookState) :
    HookState :=
  if hasClient = false ∨ isConnected = false then s
  else
    match result with
    | Except.ok raws =>
      let sessionList := (raws.getD []).map normalizeSession
      { s with sessions := sessionList, sessionsCache := some sessionList }
    | Except.error _ =>
      match s.sessionsCache with
      | some cached => { s with sessions := cached }
      | none => s

/-! ## Smart titles (`src/screens/ChatScreen.tsx` title utilities)

The module-level in-memory `titledSessions` set and the decoded
persistent smart-title cache are carried in a `TitleState`. -/

structure TitleState where
  titled : List String
  smartTitles : List (String × String)
deriving DecidableEq, Repr

/-- Lookup in the decoded smart-titles object. -/
def lookupTitle (m : List (String × String)) (k : String) : Option String :=
  match m.find? (fun p => p.1 == k) with
  | some p => some p.2
  | none => none

/-- `StorageHelpers.getSmartTitle`: `all[sessionKey] || null` — an
absent entry and an empty-string entry both yield `null`. -/
def getSmartTitle (st : TitleState) (k : String) : Option String :=
  match lookupTitle st.smartTitles k with
  | some t => if t = "" then none else some t
  | none => none

/-- `extractText`: concatenate the non-empty `text` blocks with spaces
(`map`, `filter(Boolean)`, `join(' ')`). -/
def extractText (content : List ContentBlock) : String :=
  String.intercalate " "
    (((content.map fun b =>
        match b with
        | ContentBlock.text s => s
        | _ => "")).filter (fun s => s != ""))

/-- `needsTitle(sessionKey, messages, existingTitle)` together with its
effect on the in-memory titled set (adding the key when a persistent
cached title is found).  Returns the boolean and the updated state. -/
def needsTitle (sessionKey : String) (messages : List UIMessage)
    (existingTitle : Option String) (st : TitleState) : Bool × TitleState :=
  if st.titled.contains sessionKey then (false, st)
  else
    match getSmartTitle st sessionKey with
    | some _ => (false, { st with titled := sessionKey :: st.titled })
    | none =>
      let titleExists :=
        match existingTitle with
        | some t => t != "" && t != sessionKey && !(strStartsWith t "chat-") && t != "New Chat"
        | none => false
      if titleExists then (false, st)
      else
        let userMessages := messages.filter (fun m => m.role == "user")
        let assistantMessages := messages.filter
          (fun m => m.role == "assistant" && decide (10 < (extractText m.content).length))
        (decide (1 ≤ userMessages.length) && decide (1 ≤ assistantMessages.length), st)

/-- A sequence of `needsTitle` calls for one session key, threading the
title state; returns the list of results and the final state. -/
def runNeedsTitle (sessionKey : String) :
    List (List UIMessage × Option String) → TitleState → List Bool × TitleState
  | [], st => ([], st)
  | c :: rest, st =>
    let r := needsTitle sessionKey c.1 c.2 st
    let rs := runNeedsTitle sessionKey rest r.2
    (r.1 :: rs.1, rs.2)

/-! ## The engine-lifecycle invariant (claim C1)

`EngineInvariant` is the configuration the hook is in whenever it is
connected with a live engine: the engine ref, the registered listeners
and the single alive engine all agree, the alive engine has not been
destroyed, and the id counter dominates every identity seen so far. -/

def EngineInvariant (s : HookState) : Prop :=
  ∃ e k, s.engine = some e ∧ s.subs = some e ∧ s.alive = [(e, k)] ∧
    e ∉ s.destroyed ∧ e < s.nextId ∧ (∀ d ∈ s.destroyed, d < s.nextId) ∧
    s.clientExists = true ∧ s.connState = ConnState.connected

/-- The actions claim C1 quantifies over: session switches while
connected, and update/error events fired by arbitrary engines
(including synthetic late events from destroyed engines). -/
inductive HookAction where
  | switch (k : String)
  | update (e : Nat) (msgs : List UIMessage) (streaming : Bool)
  | errorEvt (e : Nat) (msg : String)

/-- Apply one action to the hook state. -/
def applyAction (a : HookAction) (s : HookState) : HookState :=
  match a with
  | HookAction.switch k => switchSession k s
  | HookAction.update e m b => engineUpdate e m b s
  | HookAction.errorEvt e msg => engineError e msg s

/-- Run a sequence of actions. -/
def runActions (acts : List HookAction) (s : HookState) : HookState :=
  acts.foldl (fun s a => applyAction a s) s

/-! ## Helper lemmas -/

theorem convertOne_type_eq (now i : Nat) (att : PickedAttachment) :
    (convertOne now i att).type =
      (if strStartsWith (convertOne now i att).mimeType "image/" then
        AttachmentType.image
      else AttachmentType.file) := rfl

theorem convertOne_content_eq (now i : Nat) (att : PickedAttachment) :
    (convertOne now i att).content = jsOrString att.base64 "" := rfl

theorem mem_convertList (now : Nat) (c : SDKPendingAttachment) :
    ∀ (i : Nat) (atts : List PickedAttachment), c ∈ convertList now i atts →
      ∃ j a, c = convertOne now j a := by
  intro i atts
  induction atts generalizing i with
  | nil => intro h; simp [convertList] at h
  | cons a rest ih =>
    intro h
    rcases (by simpa [convertList] using h : c = convertOne now i a ∨ c ∈ convertList now (i + 1) rest) with h1 | h2
    · exact ⟨i, a, h1⟩
    · exact ih (i + 1) h2

/-! ## Theorems for the claims -/

/-- C9: the pinned-sessions, sessions-cache, last-read-messages and
smart-titles getters are total and return their defaults (`[]`, `null`,
`{}`, `{}`) whenever the raw stored value is absent or fails to parse. -/
theorem storage_getters_never_throw (store : Store)
    (pP : String → Option (List String)) (pS : String → Option (List SessionMeta))
    (pL pT : String → Option (List (String × String))) (j : String) :
    (store StorageKeys.PINNED_SESSIONS = none → getPinnedSessions store pP = [])
    ∧ (store StorageKeys.PINNED_SESSIONS = some j → pP j = none →
        getPinnedSessions store pP = [])
    ∧ (store StorageKeys.SESSIONS_CACHE = none → getSessionsCache store pS = none)
    ∧ (store StorageKeys.SESSIONS_CACHE = some j → pS j = none →
        getSessionsCache store pS = none)
    ∧ (store StorageKeys.LAST_READ_MESSAGES = none → getLastReadMessages store pL = [])
    ∧ (store StorageKeys.LAST_READ_MESSAGES = some j → pL j = none →
        getLastReadMessages store pL = [])
    ∧ (store StorageKeys.SMART_TITLES_CACHE = none → getSmartTitlesCache store pT = [])
    ∧ (store StorageKeys.SMART_TITLES_CACHE = some j → pT j = none →
        getSmartTitlesCache store pT = []) := by
  refine ⟨?_, ?_, ?_, ?_, ?_, ?_, ?_, ?_⟩
  · intro h1; simp [getPinnedSessions, h1]
  · intro h1 h2
    unfold getPinnedSessions; rw [h1]
    by_cases hj : j = "" <;> simp [hj, h2]
  · intro h1; simp [getSessionsCache, h1]
  · intro h1 h2
    unfold getSessionsCache; rw [h1]
    by_cases hj : j = "" <;> simp [hj, h2]
  · intro h1; simp [getLastReadMessages, h1]
  · intro h1 h2
    unfold getLastReadMessages; rw [h1]
    by_cases hj : j = "" <;> simp [hj, h2]
  · intro h1; simp [getSmartTitlesCache, h1]
  · intro h1 h2
    unfold getSmartTitlesCache; rw [h1]
    by_cases hj : j = "" <;> simp [hj, h2]

/-- C10 counterexample: double-toggling a pinned key that is present but
not in last position does not restore the original list — the key is
re-appended at the end. -/
theorem togglePinned_not_involutive :
    togglePinnedSession "a" (togglePinnedSession "a" ["a", "b"]) = ["b", "a"]
    ∧ togglePinnedSession "a" (togglePinnedSession "a" ["a", "b"]) ≠ ["a", "b"] := by
  decide

/-- C10 (amended): when the stored list holds a key at most once, one
toggle appends the key if absent or removes its single occurrence if
present, and a second toggle restores the original list exactly when the
key was absent, and restores it with the key moved to the end (the same
multiset of keys, witnessed by a permutation) when it was present. -/
theorem togglePinned_double (l : List String) (k : String) (h : l.count k ≤ 1) :
    (togglePinnedSession k l = if k ∈ l then l.erase k else l ++ [k])
    ∧ togglePinnedSession k (togglePinnedSession k l) =
        (if k ∈ l then l.erase k ++ [k] else l)
    ∧ (togglePinnedSession k (togglePinnedSession k l)).Perm l := by
  by_cases hk : k ∈ l
  · have hc1 : togglePinnedSession k l = l.erase k := by
      simp [togglePinnedSession, hk]
    have hcount : l.count k = 1 :=
      le_antisymm h (List.count_pos_iff.mpr hk)
    have hnot : k ∉ l.erase k := by
      intro hmem
      have := List.count_pos_iff.mpr hmem
      rw [List.count_erase_self, hcount] at this
      simp at this
    have hc2 : togglePinnedSession k (togglePinnedSession k l) = l.erase k ++ [k] := by
      rw [hc1]; simp [togglePinnedSession, hnot]
    refine ⟨by simp [hc1, hk], by simp [hc2, hk], ?_⟩
    rw [hc2]
    exact (List.perm_append_singleton k (l.erase k)).trans
      (List.perm_cons_erase hk).symm
  · have hc1 : togglePinnedSession k l = l ++ [k] := by
      simp [togglePinnedSession, hk]
    have hmem : k ∈ l ++ [k] := by simp
    have herase : (l ++ [k]).erase k = l := by
      rw [List.erase_append_right _ hk]; simp
    have hc2 : togglePinnedSession k (togglePinnedSession k l) = l := by
      rw [hc1]; simp [togglePinnedSession, hmem, herase]
    exact ⟨by simp [hc1, hk], by simp [hc2, hk], by rw [hc2]⟩

/-- C3: every attachment surviving conversion has non-empty content; its
type is `image` exactly when its (defaulted) MIME type begins with
`image/` and `file` otherwise; for non-image MIME types the derived
extension is `m4a` for `audio/*` and `bin` otherwise; and an attachment
whose normalized content is empty is dropped from the outgoing list. -/
theorem attachment_classification (now : Nat) (atts : List PickedAttachment) :
    (∀ c ∈ convertAttachments now atts,
      c.content ≠ ""
      ∧ (strStartsWith c.mimeType "image/" = true → c.type = AttachmentType.image)
      ∧ (strStartsWith c.mimeType "image/" = false → c.type = AttachmentType.file))
    ∧ (∀ mime : String, strStartsWith mime "image/" = false →
        derivedExt mime = (if strStartsWith mime "audio/" then "m4a" else "bin"))
    ∧ (∀ (i : Nat) (att : PickedAttachment), jsOrString att.base64 "" = "" →
        convertOne now i att ∉ convertAttachments now atts) := by
  refine ⟨?_, ?_, ?_⟩
  · intro c hc
    have hpair := List.mem_filter.mp hc
    have hcontent : c.content ≠ "" := by simpa using hpair.2
    obtain ⟨j, a, rfl⟩ := mem_convertList now c 0 atts hpair.1
    refine ⟨hcontent, ?_, ?_⟩ <;> intro himg <;>
      simp [convertOne_type_eq, himg]
  · intro mime h
    simp [derivedExt, h]
  · intro i att h hmem
    have hpred := (List.mem_filter.mp hmem).2
    rw [convertOne_content_eq, h] at hpred
    simp at hpred

/-- C2: calling `send` when no engine exists rejects with
`"Not connected"` and leaves the hook state — in particular the
republished messages and the streaming flag — unchanged. -/
theorem send_without_connection (s : HookState) (text : String)
    (atts : Option (List PickedAttachment)) (now : Nat)
    (h : s.engine = none) :
    send s text atts now = (Except.error "Not connected", s)
    ∧ (send s text atts now).2.messages = s.messages
    ∧ (send s text atts now).2.isStreaming = s.isStreaming := by
  simp [send, h]

/-- C6: with an empty gateway URL the hook makes no connection attempt,
creates no client and no engine, reports `disconnected`, and its error
value is `null`. -/
theorem empty_url_resting_state (url sessionKey : String) (h : url = "") :
    initHook url sessionKey = initState sessionKey
    ∧ (initHook url sessionKey).connState = ConnState.disconnected
    ∧ (initHook url sessionKey).error = none
    ∧ (initHook url sessionKey).clientExists = false
    ∧ (initHook url sessionKey).engine = none
    ∧ (initHook url sessionKey).connectAttempts = 0 := by
  subst h
  refine ⟨by simp [initHook], ?_, ?_, ?_, ?_, ?_⟩ <;> simp [initHook, initState]

/-- C8: an engine error event only records the error value: the
republished message list, the streaming flag, the connection state and
the engine references are untouched, and an event from an engine whose
listeners are not registered does nothing at all. -/
theorem engine_error_event_isolated (s : HookState) (e : Nat) (err : String) :
    (engineError e err s).messages = s.messages
    ∧ (engineError e err s).isStreaming = s.isStreaming
    ∧ (engineError e err s).connState = s.connState
    ∧ (engineError e err s).engine = s.engine
    ∧ (engineError e err s).alive = s.alive
    ∧ (s.subs = some e → (engineError e err s).error = some err)
    ∧ (s.subs ≠ some e → engineError e err s = s) := by
  unfold engineError
  split <;> simp_all

/-- C4: the session-list fetch is a no-op unless a client exists and
reports itself connected; on success the normalized list is both
republished and written over the cache; on failure the cached snapshot,
when present, is republished unchanged (and when no snapshot exists the
state is left alone). -/
theorem fetch_sessions_cache_fallback (s : HookState)
    (res : Except Unit (Option (List RawSession)))
    (raws : Option (List RawSession)) (cached : List SessionMeta) :
    (∀ hasClient isConnected : Bool, hasClient = false ∨ isConnected = false →
        fetchSessionsStep hasClient isConnected res s = s)
    ∧ fetchSessionsStep true true (Except.ok raws) s =
        { s with sessions := (raws.getD []).map normalizeSession,
                 sessionsCache := some ((raws.getD []).map normalizeSession) }
    ∧ (s.sessionsCache = some cached →
        fetchSessionsStep true true (Except.error ()) s = { s with sessions := cached })
    ∧ (s.sessionsCache = none →
        fetchSessionsStep true true (Except.error ()) s = s) := by
  refine ⟨?_, ?_, ?_, ?_⟩
  · intro hasClient isConnected h
    unfold fetchSessionsStep
    rw [if_pos h]
  · simp [fetchSessionsStep]
  · intro h; simp [fetchSessionsStep, h]
  · intro h; simp [fetchSessionsStep, h]

/-- Helper for C7: one `needsTitle` call on a titled-or-cached session
returns `false`, leaves the persistent cache alone, and preserves the
titled-or-cached condition. -/
theorem needsTitle_cached_step (st : TitleState) (k : String)
    (h : st.titled.contains k = true ∨ (getSmartTitle st k).isSome = true)
    (msgs : List UIMessage) (t : Option String) :
    (needsTitle k msgs t st).1 = false
    ∧ (needsTitle k msgs t st).2.smartTitles = st.smartTitles
    ∧ ((needsTitle k msgs t st).2.titled.contains k = true
        ∨ (getSmartTitle (needsTitle k msgs t st).2 k).isSome = true) := by
  by_cases hc : k ∈ st.titled
  · refine ⟨?_, ?_, Or.inl ?_⟩ <;> simp [needsTitle, hc]
  · have hsome : (getSmartTitle st k).isSome = true :=
      h.resolve_left (by simpa using hc)
    obtain ⟨t0, ht0⟩ := Option.isSome_iff_exists.mp hsome
    refine ⟨?_, ?_, Or.inl ?_⟩ <;>
      simp [needsTitle, hc, ht0, List.contains_cons]

/-- C7: once a session key is in the in-memory titled set or has a
(non-empty) entry in the persistent smart-title cache, every subsequent
`needsTitle` call for it returns `false` — whatever message list and
existing-title argument each call passes — and none of those calls
touches the cache entry. -/
theorem smart_title_stability (st : TitleState) (k : String)
    (h : st.titled.contains k = true ∨ (getSmartTitle st k).isSome = true) :
    (∀ (msgs : List UIMessage) (t : Option String),
        (needsTitle k msgs t st).1 = false)
    ∧ (∀ calls : List (List UIMessage × Option String),
        (runNeedsTitle k calls st).1 = calls.map (fun _ => false)
        ∧ (runNeedsTitle k calls st).2.smartTitles = st.smartTitles) := by
  constructor
  · intro msgs t
    exact (needsTitle_cached_step st k h msgs t).1
  · intro calls
    induction calls generalizing st with
    | nil => exact ⟨rfl, rfl⟩
    | cons c rest ih =>
      obtain ⟨h1, h2, h3⟩ := needsTitle_cached_step st k h c.1 c.2
      obtain ⟨ih1, ih2⟩ := ih _ h3
      refine ⟨?_, ?_⟩ <;> simp [runNeedsTitle, h1, h2, ih1, ih2]

/-! ## Engine-lifecycle invariant lemmas (claim C1) -/

/-- A session switch taken while connected with a live engine computes
to the expected record: old engine destroyed, fresh engine (identity
`s.nextId`) alive, subscribed and bound to the new key, messages and
streaming flag reset, new key persisted. -/
theorem switchSession_result (s : HookState) (k : String) (e : Nat) (k0 : String)
    (he : s.engine = some e) (hs : s.subs = some e) (ha : s.alive = [(e, k0)])
    (hc : s.clientExists = true) (hcs : s.connState = ConnState.connected) :
    switchSession k s =
      { s with currentSessionKey := k
               nextId := s.nextId + 1
               engine := some s.nextId
               subs := some s.nextId
               alive := [(s.nextId, k)]
               destroyed := e :: s.destroyed
               messages := []
               isStreaming := false
               lastSavedSession := some k } := by
  unfold switchSession createEngine spawnEngineStep destroyEngineStep unsubscribeStep
  simp [hc, hcs, he, hs, ha]

/-- Every action of the C1 alphabet preserves the engine invariant. -/
theorem applyAction_invariant (s : HookState) (a : HookAction)
    (h : EngineInvariant s) : EngineInvariant (applyAction a s) := by
  obtain ⟨e, k0, he, hs, ha, hd, hlt, hall, hc, hcs⟩ := h
  cases a with
  | switch k =>
    rw [applyAction, switchSession_result s k e k0 he hs ha hc hcs]
    refine ⟨s.nextId, k, rfl, rfl, rfl, ?_, Nat.lt_succ_self _, ?_, hc, hcs⟩
    · intro hmem
      rcases List.mem_cons.mp hmem with h1 | h2
      · omega
      · have := hall _ h2; omega
    · intro d hdm
      show d < s.nextId + 1
      rcases List.mem_cons.mp hdm with h1 | h2
      · omega
      · have := hall _ h2; omega
  | update e' m b =>
    rw [applyAction]; unfold engineUpdate
    split <;> exact ⟨e, k0, he, hs, ha, hd, hlt, hall, hc, hcs⟩
  | errorEvt e' msg =>
    rw [applyAction]; unfold engineError
    split <;> exact ⟨e, k0, he, hs, ha, hd, hlt, hall, hc, hcs⟩

/-- The engine invariant is preserved by any action sequence. -/
theorem runActions_invariant (acts : List HookAction) (s : HookState)
    (h : EngineInvariant s) : EngineInvariant (runActions acts s) := by
  induction acts generalizing s with
  | nil => exact h
  | cons a rest ih => exact ih (applyAction a s) (applyAction_invariant s a h)

/-- Under the invariant, events fired by a destroyed engine are ignored:
they change nothing in the hook state. -/
theorem destroyed_engine_events_ignored (s : HookState) (h : EngineInvariant s)
    (e : Nat) (hd : e ∈ s.destroyed) :
    (∀ m b, engineUpdate e m b s = s) ∧ (∀ msg, engineError e msg s = s) := by
  obtain ⟨e0, _, _, hs, _, hnd, _, _, _, _⟩ := h
  have hne : ¬s.subs = some e := by
    rw [hs]
    intro hcontra
    injection hcontra with hh
    exact hnd (hh ▸ hd)
  constructor
  · intro m b; simp [engineUpdate, hne]
  · intro msg; simp [engineError, hne]

/-- C1: starting from any connected state with a live engine, after any
sequence of session switches and (possibly late, possibly synthetic)
engine events: the invariant still holds, exactly one engine is alive,
no update or error event fired by a destroyed engine changes the state
snapshot, and any further session switch proceeds as
unsubscribe-then-destroy-then-spawn — after the unsubscribe the old
engine is still held and alive but its listeners are gone, after the
destroy it is released and recorded destroyed, and only then is the
fresh engine (a new identity) constructed, subscribed and bound to the
new key with the republished messages reset to `[]` and the streaming
flag to `false`. -/
theorem session_switch_lifecycle (s : HookState) (hinv : EngineInvariant s)
    (acts : List HookAction) :
    EngineInvariant (runActions acts s)
    ∧ (runActions acts s).alive.length = 1
    ∧ (∀ e, e ∈ (runActions acts s).destroyed →
        (∀ m b, engineUpdate e m b (runActions acts s) = runActions acts s)
        ∧ (∀ msg, engineError e msg (runActions acts s) = runActions acts s))
    ∧ (∀ k e, (runActions acts s).engine = some e →
        switchSession k (runActions acts s)
          = { spawnEngineStep k (destroyEngineStep (unsubscribeStep
                { runActions acts s with currentSessionKey := k }))
              with lastSavedSession := some k }
        ∧ (unsubscribeStep { runActions acts s with currentSessionKey := k }).subs = none
        ∧ (unsubscribeStep { runActions acts s with currentSessionKey := k }).alive
            = (runActions acts s).alive
        ∧ (unsubscribeStep { runActions acts s with currentSessionKey := k }).engine = some e
        ∧ (destroyEngineStep (unsubscribeStep
            { runActions acts s with currentSessionKey := k })).engine = none
        ∧ e ∈ (destroyEngineStep (unsubscribeStep
            { runActions acts s with currentSessionKey := k })).destroyed
        ∧ (destroyEngineStep (unsubscribeStep
            { runActions acts s with currentSessionKey := k })).alive = []
        ∧ (switchSession k (runActions acts s)).engine = some (runActions acts s).nextId
        ∧ (runActions acts s).nextId ≠ e
        ∧ (switchSession k (runActions acts s)).subs = some (runActions acts s).nextId
        ∧ (switchSession k (runActions acts s)).alive = [((runActions acts s).nextId, k)]
        ∧ (switchSession k (runActions acts s)).messages = []
        ∧ (switchSession k (runActions acts s)).isStreaming = false) := by
  have hinv2 := runActions_invariant acts s hinv
  obtain ⟨e0, k0, he, hs, ha, hd, hlt, hall, hc, hcs⟩ := hinv2
  refine ⟨runActions_invariant acts s hinv, by rw [ha]; rfl, ?_, ?_⟩
  · intro e hde
    exact destroyed_engine_events_ignored (runActions acts s)
      (runActions_invariant acts s hinv) e hde
  · intro k e heq
    have he0 : e = e0 := by rw [he] at heq; injection heq with hh; exact hh.symm
    subst he0
    have hres := switchSession_result (runActions acts s) k e k0 he hs ha hc hcs
    refine ⟨?_, ?_, ?_, ?_, ?_, ?_, ?_, ?_, ?_, ?_, ?_, ?_, ?_⟩
    · unfold switchSession at hres ⊢
      simp only [hc, hcs, and_self, if_true] at hres ⊢
      simp [he, createEngine] at hres ⊢
    · simp [unsubscribeStep, hs]
    · simp [unsubscribeStep, hs]
    · simp [unsubscribeStep, hs, he]
    · simp [unsubscribeStep, destroyEngineStep, hs, he]
    · simp [unsubscribeStep, destroyEngineStep, hs, he]
    · simp [unsubscribeStep, destroyEngineStep, hs, he, ha]
    · rw [hres]
    · omega
    · rw [hres]
    · rw [hres]
    · rw [hres]
    · rw [hres]

/-! ## Concrete states for witnesses and counterexamples -/

/-- The state right after the client for session `main` first reports
`connected` (the connection effect captured `main`): engine 0 is alive,
subscribed and bound to `main`. -/
def connectedState : HookState :=
  onConnectionStateChange "main" ConnState.connected
    { initState "main" with clientExists := true }

/-- `connectedState` after the client reports `disconnected` (same
captured key). -/
def droppedState : HookState :=
  onConnectionStateChange "main" ConnState.disconnected connectedState

/-- The switch–drop–reconnect trace: from `connectedState`, switch the
target session to `alt` while connected, then let the client drop and
auto-reconnect; the connection callback still holds the mount-time
captured key `main`. -/
def staleReconnectState : HookState :=
  onConnectionStateChange "main" ConnState.connected
    (onConnectionStateChange "main" ConnState.disconnected
      (switchSession "alt" connectedState))

/-- C5 counterexample, refuting both over-statements of the claim.
First: on the client's state reaching `disconnected` the handler
destroys and releases engine 0, but — contrary to the claim's
"unsubscribing its events" — the hook's update/error listeners stay
registered on the destroyed engine (`subs` is still `some 0`), so a
synthetic late update from the destroyed engine still mutates the
snapshot (the streaming flag flips to `true`).  Second: after
switching the target session to `alt` while connected and then
dropping and reconnecting, the fresh engine is bound to the stale
captured key `main`, not the "current target session" `alt` the claim
promises. -/
theorem disconnect_does_not_unsubscribe :
    droppedState.engine = none
    ∧ (0 : Nat) ∈ droppedState.destroyed
    ∧ droppedState.subs = some 0
    ∧ droppedState.isStreaming = false
    ∧ (engineUpdate 0 [] true droppedState).isStreaming = true
    ∧ staleReconnectState.currentSessionKey = "alt"
    ∧ staleReconnectState.alive = [(2, "main")] := by
  decide

/-- C5 (amended): on `disconnected` the hook destroys and releases the
current engine but leaves its listeners registered (they are
unsubscribed only when the next engine is created) and neither destroys
nor disconnects the client; when the client's auto-reconnect brings the
state back to `connected`, a fresh engine is created and subscribed
(the stale listeners being removed first) with the error value cleared,
bound to the session key the connection effect captured when it
installed the callback — after an intervening session switch that is
the stale mount-time key, not the live current target (which the
reconnect leaves untouched). -/
theorem disconnect_keeps_client (s : HookState) (ck : String) (e : Nat)
    (k0 : String) (he : s.engine = some e) (hsub : s.subs = some e)
    (halive : s.alive = [(e, k0)]) (hc : s.clientExists = true) :
    (onConnectionStateChange ck ConnState.disconnected s).engine = none
    ∧ e ∈ (onConnectionStateChange ck ConnState.disconnected s).destroyed
    ∧ (onConnectionStateChange ck ConnState.disconnected s).alive = []
    ∧ (onConnectionStateChange ck ConnState.disconnected s).clientExists = true
    ∧ (onConnectionStateChange ck ConnState.disconnected s).clientDisconnects
        = s.clientDisconnects
    ∧ (onConnectionStateChange ck ConnState.disconnected s).connectAttempts
        = s.connectAttempts
    ∧ (onConnectionStateChange ck ConnState.disconnected s).subs = some e
    ∧ (onConnectionStateChange ck ConnState.connected
        (onConnectionStateChange ck ConnState.disconnected s)).engine
        = some s.nextId
    ∧ (onConnectionStateChange ck ConnState.connected
        (onConnectionStateChange ck ConnState.disconnected s)).subs
        = some s.nextId
    ∧ (onConnectionStateChange ck ConnState.connected
        (onConnectionStateChange ck ConnState.disconnected s)).alive
        = [(s.nextId, ck)]
    ∧ (onConnectionStateChange ck ConnState.connected
        (onConnectionStateChange ck ConnState.disconnected s)).currentSessionKey
        = s.currentSessionKey
    ∧ (onConnectionStateChange ck ConnState.connected
        (onConnectionStateChange ck ConnState.disconnected s)).connState
        = ConnState.connected
    ∧ (onConnectionStateChange ck ConnState.connected
        (onConnectionStateChange ck ConnState.disconnected s)).error = none := by
  unfold onConnectionStateChange
  simp [he, hsub, halive, hc, createEngine, spawnEngineStep, destroyEngineStep,
    unsubscribeStep]

/-! ## Witnesses: each hypothesised claim theorem applied at a concrete
input with its hypotheses discharged. -/

/-- Witness for C1 at the freshly connected state, switching `main` to
`alt`: exactly one engine is alive afterwards. -/
theorem session_switch_lifecycle_witness :
    (runActions [HookAction.switch "alt"] connectedState).alive.length = 1 :=
  (session_switch_lifecycle connectedState
    ⟨0, "main", rfl, rfl, rfl, by decide, by decide, by decide, rfl, rfl⟩
    [HookAction.switch "alt"]).2.1

/-- Witness for C2: `send` on the never-connected initial state. -/
theorem send_without_connection_witness :
    send (initState "main") "hi" none 0
      = (Except.error "Not connected", initState "main") :=
  (send_without_connection (initState "main") "hi" none 0 rfl).1

/-- Witness for C3: an image attachment whose normalized content is
empty is dropped from the outgoing list. -/
theorem attachment_classification_witness :
    convertOne 5 0 ⟨some "image/png", some "", none⟩
      ∉ convertAttachments 5 [⟨some "image/png", some "", none⟩] :=
  (attachment_classification 5 [⟨some "image/png", some "", none⟩]).2.2
    0 ⟨some "image/png", some "", none⟩ rfl

/-- Witness for C4: a failed fetch republishes the cached snapshot. -/
theorem fetch_sessions_cache_fallback_witness :
    fetchSessionsStep true true (Except.error ())
        { initState "main" with
            sessionsCache := some [⟨"s1", "s1", none, none, none, none, none,
              none, none, none, none⟩] }
      = { initState "main" with
            sessionsCache := some [⟨"s1", "s1", none, none, none, none, none,
              none, none, none, none⟩],
            sessions := [⟨"s1", "s1", none, none, none, none, none,
              none, none, none, none⟩] } :=
  (fetch_sessions_cache_fallback
    { initState "main" with
        sessionsCache := some [⟨"s1", "s1", none, none, none, none, none,
          none, none, none, none⟩] }
    (Except.error ()) none
    [⟨"s1", "s1", none, none, none, none, none, none, none, none, none⟩]).2.2.1
    rfl

/-- Witness for C5 (amended), at the switch–drop–reconnect trace: the
fresh engine (identity 2) is bound to the captured key `main` even
though the current target session is `alt`. -/
theorem disconnect_keeps_client_witness :
    staleReconnectState.alive = [(2, "main")] :=
  (disconnect_keeps_client (switchSession "alt" connectedState) "main" 1 "alt"
    (by decide) (by decide) (by decide) (by decide)).2.2.2.2.2.2.2.2.2.1

/-- Witness for C6: the empty gateway URL yields the resting state. -/
theorem empty_url_resting_state_witness :
    initHook "" "main" = initState "main" :=
  (empty_url_resting_state "" "main" rfl).1

/-- Witness for C7: a session with a cached smart title does not need a
title, whatever messages arrive. -/
theorem smart_title_stability_witness :
    (needsTitle "s" [] none { titled := [], smartTitles := [("s", "T")] }).1
      = false :=
  (smart_title_stability { titled := [], smartTitles := [("s", "T")] } "s"
    (Or.inr (by decide))).1 [] none

/-- Witness for C8: an error event on the connected state records the
error value. -/
theorem engine_error_event_isolated_witness :
    (engineError 0 "boom" connectedState).error = some "boom" :=
  (engine_error_event_isolated connectedState 0 "boom").2.2.2.2.2.1 rfl

/-- Witness for C9: all four getters at a store whose entries are
present but unparseable. -/
theorem storage_getters_never_throw_witness :
    getPinnedSessions (fun _ => some "oops") (fun _ => none) = []
    ∧ getSessionsCache (fun _ => some "oops")
        (fun _ => (none : Option (List SessionMeta))) = none
    ∧ getLastReadMessages (fun _ => some "oops") (fun _ => none) = []
    ∧ getSmartTitlesCache (fun _ => some "oops") (fun _ => none) = [] := by
  have h := storage_getters_never_throw (fun _ => some "oops")
    (fun _ => none) (fun _ => none) (fun _ => none) (fun _ => none) "oops"
  exact ⟨h.2.1 rfl rfl, h.2.2.2.1 rfl rfl, h.2.2.2.2.2.1 rfl rfl,
    h.2.2.2.2.2.2.2 rfl rfl⟩

/-- Witness for C10 (amended): double-toggling `"a"` on `["a", "b"]`
moves the key to the end, a permutation of the original list. -/
theorem togglePinned_double_witness :
    (togglePinnedSession "a" ["a", "b"]
        = if "a" ∈ ["a", "b"] then (["a", "b"] : List String).erase "a"
          else ["a", "b"] ++ ["a"])
    ∧ togglePinnedSession "a" (togglePinnedSession "a" ["a", "b"])
        = (if "a" ∈ ["a", "b"] then (["a", "b"] : List String).erase "a" ++ ["a"]
           else ["a", "b"])
    ∧ (togglePinnedSession "a" (togglePinnedSession "a" ["a", "b"])).Perm
        ["a", "b"] :=
  togglePinned_double ["a", "b"] "a" (by decide)

end CamiApp

